import Mathlib

/-!
Shallow embedding of src/static/js/script.js, a client-side UI script
registered on DOMContentLoaded with four behaviors:

1. a scroll listener that toggles the "sticky" class on the first element
   matching ".navbar" according to whether window.scrollY > 50;
2. a click listener on every link captured at initialization that, when
   the link hash is nonempty and starts with "#", prevents the default
   navigation and issues scrollIntoView on the first element whose id
   matches the fragment, with behavior "smooth" and block "start";
3. a click listener on the captured ".nav-links a" elements that removes
   the "active" class from all of them and adds it to the clicked one;
4. a scroll listener (also run once on load) that adds the "visible"
   class to each captured ".reveal" element whose bounding-rect top is
   below the threshold window.innerHeight - 100.

DOM elements are modelled as records with a node-identity key, the id
attribute, and the class list.  classList.add and classList.remove keep
DOMTokenList set semantics.  The viewport quantities scrollY,
innerHeight and each element bounding-rect top are environment inputs
supplied per event.
-/

namespace VaxSafe

/-- A DOM element: node identity `key`, the `id` attribute (empty string
when absent), and the class attribute as a token list. -/
structure Elem where
  key : Nat
  domId : String
  classes : List String
  deriving Repr, DecidableEq

/-- `e.classList.contains c`. -/
def hasClass (e : Elem) (c : String) : Bool :=
  e.classes.contains c

/-- `e.classList.add c`: DOMTokenList set semantics, appends the token
only when absent. -/
def classListAdd (e : Elem) (c : String) : Elem :=
  { e with classes := if e.classes.contains c then e.classes else e.classes ++ [c] }

/-- `e.classList.remove c`: drops every occurrence of the token. -/
def classListRemove (e : Elem) (c : String) : Elem :=
  { e with classes := e.classes.filter (fun x => x != c) }

/-- Apply `f` to the first element satisfying `p`, the rest unchanged;
identity when no element matches.  This is the shape of
`const x = document.querySelector(sel); if (x) mutate(x);`. -/
def updateFirst (p : Elem → Bool) (f : Elem → Elem) : List Elem → List Elem
  | [] => []
  | e :: es => if p e then f e :: es else e :: updateFirst p f es

/-- The sticky-navbar scroll listener (script.js lines 3-12): re-query
".navbar" on the current document; when found, add "sticky" if
scrollY > 50, else remove it; silently do nothing when absent. -/
def stickyScrollHandler (doc : List Elem) (scrollY : Nat) : List Elem :=
  updateFirst (fun e => hasClass e "navbar")
    (fun navbar =>
      if scrollY > 50 then classListAdd navbar "sticky"
      else classListRemove navbar "sticky")
    doc

/-- The observable sticky state: whether the element that
querySelector(".navbar") returns carries "sticky" (none when no navbar
exists). -/
def navbarStickyState (doc : List Elem) : Option Bool :=
  (doc.find? (fun e => hasClass e "navbar")).map (fun e => hasClass e "sticky")

/-- One `scrollIntoView` invocation as issued by the smooth-scroll
click listener: target node plus the options object. -/
structure ScrollCall where
  targetKey : Nat
  behavior : String
  block : String
  deriving Repr, DecidableEq

/-- The observable outcome of one click on a smooth-scroll link:
whether preventDefault ran, and the scrollIntoView calls issued. -/
structure ClickResult where
  defaultPrevented : Bool
  scrollCalls : List ScrollCall
  deriving Repr, DecidableEq

/-- `s.startsWith p`, expressed on the underlying character lists
(true exactly when `p` is a prefix of `s`) so that concrete instances
evaluate by kernel reduction. -/
def strStartsWith (s p : String) : Bool :=
  p.data.isPrefixOf s.data

/-- The smooth-scroll click listener body (script.js lines 16-27) for a
link whose `hash` property is given: when the hash is nonempty and
starts with "#", prevent default and querySelector the fragment; when
the target exists issue exactly one smooth scrollIntoView with block
"start"; otherwise fall through to default navigation. -/
def smoothScrollClickHandler (doc : List Elem) (hash : String) : ClickResult :=
  if hash != "" && strStartsWith hash "#" then
    match doc.find? (fun e => e.domId == hash.drop 1) with
    | some target =>
        { defaultPrevented := true
          scrollCalls := [{ targetKey := target.key, behavior := "smooth", block := "start" }] }
    | none => { defaultPrevented := true, scrollCalls := [] }
  else
    { defaultPrevented := false, scrollCalls := [] }

/-- Effect on one document element of the loop
`links.forEach(l => l.classList.remove("active"))`: the element loses
"active" exactly when it is one of the captured links. -/
def clearActive (links : List Nat) (e : Elem) : Elem :=
  if links.contains e.key then classListRemove e "active" else e

/-- Effect on one document element of `link.classList.add("active")`
for the clicked node. -/
def markActive (clicked : Nat) (e : Elem) : Elem :=
  if e.key = clicked then classListAdd e "active" else e

/-- The active-link click listener (script.js lines 33-36): `links` is
the node set captured from ".nav-links a" at initialization and
`clicked` the clicked node; remove "active" from every captured link,
then add it to the clicked one. -/
def activeClickHandler (links : List Nat) (clicked : Nat) (doc : List Elem) : List Elem :=
  let cleared := doc.map (clearActive links)
  cleared.map (markActive clicked)

/-- One iteration of the reveal loop body for element `e`: add "visible"
when the element is tracked and its bounding-rect top is below
innerHeight - 100. -/
def revealStep (reveals : List Nat) (top : Nat → Int) (innerHeight : Int) (e : Elem) : Elem :=
  if reveals.contains e.key && decide (top e.key < innerHeight - 100) then
    classListAdd e "visible"
  else e

/-- revealOnScroll (script.js lines 41-48): for every captured ".reveal"
element whose current bounding-rect top satisfies
`top < innerHeight - 100`, add the "visible" class. -/
def revealOnScroll (reveals : List Nat) (top : Nat → Int) (innerHeight : Int)
    (doc : List Elem) : List Elem :=
  doc.map (revealStep reveals top innerHeight)

/-- querySelectorAll over a class selector, as the list of matching node
keys in document order. -/
def queryAllClass (doc : List Elem) (c : String) : List Nat :=
  (doc.filter (fun e => hasClass e c)).map (fun e => e.key)

/-- The state closed over by the listeners: the live document plus the
node sets captured once at initialization. -/
structure PageState where
  doc : List Elem
  capturedNavLinks : List Nat
  capturedReveals : List Nat

/-- The environment data carried by one scroll event: current scrollY,
current bounding-rect top of each node, current innerHeight. -/
structure ScrollEvent where
  scrollY : Nat
  top : Nat → Int
  innerHeight : Int

/-- Document after one scroll event: the two scroll listeners fire in
registration order, the sticky-navbar toggler first (it re-queries the
live document), then revealOnScroll over the captured reveal set. -/
def scrollEventStep (st : PageState) (ev : ScrollEvent) : List Elem :=
  revealOnScroll st.capturedReveals ev.top ev.innerHeight
    (stickyScrollHandler st.doc ev.scrollY)

/-- Fold a sequence of scroll events over the page state. -/
def runScrollEvents (st : PageState) (evs : List ScrollEvent) : PageState :=
  evs.foldl (fun s ev => { s with doc := scrollEventStep s ev }) st

/-- The DOMContentLoaded handler (script.js lines 1-52): capture the
".reveal" node set from the initial document, register the listeners,
and run revealOnScroll exactly once on load.  The ".nav-links a"
capture comes from the document tree, which the flat model takes as a
parameter. -/
def pageInit (initDoc : List Elem) (navLinks : List Nat)
    (top0 : Nat → Int) (innerHeight0 : Int) : PageState :=
  let reveals := queryAllClass initDoc "reveal"
  { doc := revealOnScroll reveals top0 innerHeight0 initDoc
    capturedNavLinks := navLinks
    capturedReveals := reveals }

/-! ### Basic lemmas about class-list operations -/

theorem hasClass_eq_mem (e : Elem) (c : String) :
    hasClass e c = decide (c ∈ e.classes) := by
  simp [hasClass, List.elem_eq_mem]

theorem classListAdd_key (e : Elem) (c : String) : (classListAdd e c).key = e.key := rfl

theorem classListAdd_domId (e : Elem) (c : String) : (classListAdd e c).domId = e.domId := rfl

theorem classListRemove_key (e : Elem) (c : String) : (classListRemove e c).key = e.key := rfl

theorem classListRemove_domId (e : Elem) (c : String) :
    (classListRemove e c).domId = e.domId := rfl

theorem beq_decide (a b : String) : (a == b) = decide (a = b) := by
  by_cases h : a = b <;> simp [h]

theorem hasClass_classListAdd (e : Elem) (c c' : String) :
    hasClass (classListAdd e c) c' = (hasClass e c' || c' == c) := by
  by_cases hm : c ∈ e.classes
  · have h : e.classes.contains c = true := by simpa [List.elem_eq_mem] using hm
    by_cases h' : c' = c
    · subst h'
      simp [classListAdd, h, hm, hasClass_eq_mem]
    · simp [classListAdd, h, hm, beq_decide, h']
  · have h : e.classes.contains c = false := by simpa [List.elem_eq_mem] using hm
    simp [classListAdd, h, hm, hasClass_eq_mem, List.mem_append, beq_decide, Bool.or_comm]

theorem hasClass_classListRemove (e : Elem) (c c' : String) :
    hasClass (classListRemove e c) c' = (hasClass e c' && c' != c) := by
  simp only [classListRemove, hasClass_eq_mem, List.mem_filter]
  by_cases h' : c' = c
  · subst h'
    simp
  · simp [h']

theorem classListAdd_of_hasClass (e : Elem) (c : String) (h : hasClass e c = true) :
    classListAdd e c = e := by
  have hm : c ∈ e.classes := by simpa [hasClass_eq_mem] using h
  have hb : e.classes.contains c = true := h
  simp [classListAdd, hb, hm]

theorem classListAdd_idem (e : Elem) (c : String) :
    classListAdd (classListAdd e c) c = classListAdd e c := by
  apply classListAdd_of_hasClass
  simp [hasClass_classListAdd]

theorem classListRemove_idem (e : Elem) (c : String) :
    classListRemove (classListRemove e c) c = classListRemove e c := by
  simp only [classListRemove, List.filter_filter]
  congr 1
  apply List.filter_congr
  intro x _
  exact Bool.and_self _

/-! ### The sticky-navbar toggler -/

/-- The mutation the sticky handler applies to the navbar it found. -/
def stickyMutation (scrollY : Nat) (navbar : Elem) : Elem :=
  if scrollY > 50 then classListAdd navbar "sticky" else classListRemove navbar "sticky"

theorem stickyScrollHandler_eq (doc : List Elem) (y : Nat) :
    stickyScrollHandler doc y = updateFirst (fun e => hasClass e "navbar") (stickyMutation y) doc := rfl

theorem hasClass_navbar_stickyMutation (y : Nat) (e : Elem) :
    hasClass (stickyMutation y e) "navbar" = hasClass e "navbar" := by
  by_cases hy : y > 50 <;>
    simp [stickyMutation, hy, hasClass_classListAdd, hasClass_classListRemove]

theorem hasClass_sticky_stickyMutation (y : Nat) (e : Elem) :
    hasClass (stickyMutation y e) "sticky" = decide (y > 50) := by
  by_cases hy : y > 50 <;>
    simp [stickyMutation, hy, hasClass_classListAdd, hasClass_classListRemove]

theorem stickyMutation_idem (y : Nat) (e : Elem) :
    stickyMutation y (stickyMutation y e) = stickyMutation y e := by
  by_cases hy : y > 50 <;>
    simp [stickyMutation, hy, classListAdd_idem, classListRemove_idem]

theorem updateFirst_cons_pos (p : Elem → Bool) (f : Elem → Elem) (e : Elem) (es : List Elem)
    (h : p e = true) : updateFirst p f (e :: es) = f e :: es := by
  simp [updateFirst, h]

theorem updateFirst_cons_neg (p : Elem → Bool) (f : Elem → Elem) (e : Elem) (es : List Elem)
    (h : ¬p e = true) : updateFirst p f (e :: es) = e :: updateFirst p f es := by
  simp [updateFirst, h]

theorem navbarStickyState_stickyScrollHandler (doc : List Elem) (y : Nat) :
    navbarStickyState (stickyScrollHandler doc y)
      = (navbarStickyState doc).map (fun _ => decide (y > 50)) := by
  induction doc with
  | nil => rfl
  | cons e es ih =>
    simp only [stickyScrollHandler_eq] at *
    by_cases h : hasClass e "navbar" = true
    · have h' : hasClass (stickyMutation y e) "navbar" = true := by
        rw [hasClass_navbar_stickyMutation]; exact h
      rw [updateFirst_cons_pos (fun e => hasClass e "navbar") (stickyMutation y) e es h]
      unfold navbarStickyState
      rw [@List.find?_cons_of_pos Elem (fun e => hasClass e "navbar") (stickyMutation y e) es h',
        @List.find?_cons_of_pos Elem (fun e => hasClass e "navbar") e es h]
      simp [hasClass_sticky_stickyMutation]
    · rw [updateFirst_cons_neg (fun e => hasClass e "navbar") (stickyMutation y) e es h]
      unfold navbarStickyState at ih ⊢
      rw [@List.find?_cons_of_neg Elem (fun e => hasClass e "navbar") e
          (updateFirst (fun e => hasClass e "navbar") (stickyMutation y) es) h,
        @List.find?_cons_of_neg Elem (fun e => hasClass e "navbar") e es h]
      exact ih

theorem stickyScrollHandler_idem (doc : List Elem) (y : Nat) :
    stickyScrollHandler (stickyScrollHandler doc y) y = stickyScrollHandler doc y := by
  induction doc with
  | nil => rfl
  | cons e es ih =>
    simp only [stickyScrollHandler_eq] at *
    by_cases h : hasClass e "navbar" = true
    · have h' : hasClass (stickyMutation y e) "navbar" = true := by
        rw [hasClass_navbar_stickyMutation]; exact h
      rw [updateFirst_cons_pos (fun e => hasClass e "navbar") (stickyMutation y) e es h,
        updateFirst_cons_pos (fun e => hasClass e "navbar") (stickyMutation y)
          (stickyMutation y e) es h',
        stickyMutation_idem]
    · rw [updateFirst_cons_neg (fun e => hasClass e "navbar") (stickyMutation y) e es h,
        updateFirst_cons_neg (fun e => hasClass e "navbar") (stickyMutation y) e
          (updateFirst (fun e => hasClass e "navbar") (stickyMutation y) es) h,
        ih]

/-- C1: on every scroll event the navbar found by the handler carries
the "sticky" class afterwards exactly when the current offset exceeds
50; the outcome is a function of the current offset alone (the prior
class state is discarded by the Option.map of a constant), and running
the handler again at the same offset changes nothing. -/
theorem sticky_navbar_correct (doc : List Elem) (y : Nat) :
    navbarStickyState (stickyScrollHandler doc y)
        = (navbarStickyState doc).map (fun _ => decide (y > 50))
      ∧ stickyScrollHandler (stickyScrollHandler doc y) y = stickyScrollHandler doc y :=
  ⟨navbarStickyState_stickyScrollHandler doc y, stickyScrollHandler_idem doc y⟩

/-! ### The smooth in-page scroller -/

/-- C5: clicking a link whose fragment is nonempty, begins with "#",
and matches an existing element suppresses the default navigation and
issues exactly one scrollIntoView call on that element, with behavior
"smooth" and block "start" (top aligned with the viewport top). -/
theorem smoothScroll_target_found (doc : List Elem) (hash : String) (t : Elem)
    (h1 : hash ≠ "") (h2 : strStartsWith hash "#" = true)
    (h3 : doc.find? (fun e => e.domId == hash.drop 1) = some t) :
    smoothScrollClickHandler doc hash
      = { defaultPrevented := true
          scrollCalls := [{ targetKey := t.key, behavior := "smooth", block := "start" }] } := by
  have hb : (hash != "") = true := by simpa using h1
  simp [smoothScrollClickHandler, hb, h2, h3]

/-- Witness for C5: href "#section2" with an element of id section2
present. -/
theorem smoothScroll_target_found_witness :
    smoothScrollClickHandler [⟨7, "section2", []⟩] "#section2"
      = { defaultPrevented := true
          scrollCalls := [{ targetKey := 7, behavior := "smooth", block := "start" }] } :=
  smoothScroll_target_found [⟨7, "section2", []⟩] "#section2" ⟨7, "section2", []⟩
    (by decide) (by decide) (by decide)

/-- C6: clicking a link whose fragment is nonempty and begins with "#"
but matches no element still suppresses the default navigation, issues
no scroll call, and terminates normally. -/
theorem smoothScroll_target_missing (doc : List Elem) (hash : String)
    (h1 : hash ≠ "") (h2 : strStartsWith hash "#" = true)
    (h3 : doc.find? (fun e => e.domId == hash.drop 1) = none) :
    smoothScrollClickHandler doc hash = { defaultPrevented := true, scrollCalls := [] } := by
  have hb : (hash != "") = true := by simpa using h1
  simp [smoothScrollClickHandler, hb, h2, h3]

/-- Witness for C6: href "#missing" against a document with no matching
element. -/
theorem smoothScroll_target_missing_witness :
    smoothScrollClickHandler [⟨7, "section2", []⟩] "#missing"
      = { defaultPrevented := true, scrollCalls := [] } :=
  smoothScroll_target_missing [⟨7, "section2", []⟩] "#missing"
    (by decide) (by decide) (by decide)

/-- C7: clicking a link whose fragment is the empty string does not
suppress the default navigation and issues no scroll call: the click
falls through to the default browser behavior. -/
theorem smoothScroll_empty_hash (doc : List Elem) (hash : String) (h : hash = "") :
    smoothScrollClickHandler doc hash = { defaultPrevented := false, scrollCalls := [] } := by
  subst h
  simp [smoothScrollClickHandler]

/-- Witness for C7: empty href on a nonempty document. -/
theorem smoothScroll_empty_hash_witness :
    smoothScrollClickHandler [⟨7, "section2", []⟩] ""
      = { defaultPrevented := false, scrollCalls := [] } :=
  smoothScroll_empty_hash [⟨7, "section2", []⟩] "" rfl

/-! ### The active-link highlighter -/

theorem clearActive_key (links : List Nat) (e : Elem) :
    (clearActive links e).key = e.key := by
  unfold clearActive
  split <;> rfl

theorem markActive_key (clicked : Nat) (e : Elem) :
    (markActive clicked e).key = e.key := by
  unfold markActive
  split <;> rfl

theorem activeClickHandler_eq (links : List Nat) (clicked : Nat) (doc : List Elem) :
    activeClickHandler links clicked doc
      = (doc.map (clearActive links)).map (markActive clicked) := rfl

theorem classListRemove_classListAdd_cancel (e : Elem) (c : String) :
    classListRemove (classListAdd (classListRemove e c) c) c = classListRemove e c := by
  have h : (classListRemove e c).classes.contains c = false := by
    have := hasClass_classListRemove e c c
    simpa [hasClass] using this
  simp only [classListAdd, h, Bool.false_eq_true, if_false]
  simp only [classListRemove, List.filter_append, List.filter_filter]
  have h1 : List.filter (fun x => x != c) [c] = [] := by simp
  have h2 : (fun a => (a != c) && (a != c)) = fun a => a != c := by
    funext a
    exact Bool.and_self _
  rw [h1, h2, List.append_nil]

/-- Combined effect of one active-link click on one document element. -/
theorem activeClick_step_idem (links : List Nat) (clicked : Nat) (e : Elem) :
    markActive clicked (clearActive links (markActive clicked (clearActive links e)))
      = markActive clicked (clearActive links e) := by
  by_cases hl : links.contains e.key = true
  · have e1 : clearActive links e = classListRemove e "active" := if_pos hl
    by_cases hc : e.key = clicked
    · have e2 : markActive clicked (classListRemove e "active")
          = classListAdd (classListRemove e "active") "active" := if_pos hc
      have e3 : clearActive links (classListAdd (classListRemove e "active") "active")
          = classListRemove (classListAdd (classListRemove e "active") "active") "active" :=
        if_pos hl
      rw [e1, e2, e3, classListRemove_classListAdd_cancel, e2]
    · have e2 : markActive clicked (classListRemove e "active")
          = classListRemove e "active" := if_neg hc
      have e3 : clearActive links (classListRemove e "active")
          = classListRemove (classListRemove e "active") "active" := if_pos hl
      rw [e1, e2, e3, classListRemove_idem, e2]
  · have e1 : clearActive links e = e := if_neg hl
    by_cases hc : e.key = clicked
    · have e2 : markActive clicked e = classListAdd e "active" := if_pos hc
      have e3 : clearActive links (classListAdd e "active") = classListAdd e "active" :=
        if_neg hl
      have e4 : markActive clicked (classListAdd e "active")
          = classListAdd (classListAdd e "active") "active" := if_pos hc
      rw [e1, e2, e3, e4, classListAdd_idem]
    · have e2 : markActive clicked e = e := if_neg hc
      rw [e1, e2, e1, e2]

/-- C2: after any click on a captured navigation link, exactly the
clicked link carries "active" among the captured set; and in the
concrete 2-step scenario with three links and none initially active,
clicking L2 then L3 leaves exactly L3 active. -/
theorem activeClick_exactly_one (links : List Nat) (clicked : Nat) (doc : List Elem)
    (_hcl : clicked ∈ links) :
    (∀ e' ∈ activeClickHandler links clicked doc,
        e'.key ∈ links → hasClass e' "active" = decide (e'.key = clicked))
    ∧ activeClickHandler [1, 2, 3] 3
        (activeClickHandler [1, 2, 3] 2 [⟨1, "", []⟩, ⟨2, "", []⟩, ⟨3, "", []⟩])
      = [⟨1, "", []⟩, ⟨2, "", []⟩, ⟨3, "", ["active"]⟩] := by
  constructor
  · intro e' he' hk
    rw [activeClickHandler_eq] at he'
    simp only [List.mem_map] at he'
    obtain ⟨a, ⟨b, hb, ha⟩, hg⟩ := he'
    by_cases hl : links.contains b.key = true
    · rw [clearActive, if_pos hl] at ha
      subst ha
      by_cases hc : (classListRemove b "active").key = clicked
      · rw [markActive, if_pos hc] at hg
        subst hg
        simp [hasClass_classListAdd, classListAdd_key, hc]
      · rw [markActive, if_neg hc] at hg
        subst hg
        simp [hasClass_classListRemove, hc]
    · rw [clearActive, if_neg hl] at ha
      subst ha
      by_cases hc : b.key = clicked
      · rw [markActive, if_pos hc] at hg
        subst hg
        simp [hasClass_classListAdd, classListAdd_key, hc]
      · rw [markActive, if_neg hc] at hg
        subst hg
        have hmem : links.contains b.key = true := by
          simpa [List.elem_eq_mem] using hk
        exact absurd hmem hl
  · decide

/-- Witness for C2: clicking link 2 in the three-link document. -/
theorem activeClick_exactly_one_witness :
    hasClass (⟨2, "", ["active"]⟩ : Elem) "active" = decide ((2 : Nat) = 2) :=
  (activeClick_exactly_one [1, 2, 3] 2 [⟨1, "", []⟩, ⟨2, "", []⟩, ⟨3, "", []⟩]
      (by decide)).1 ⟨2, "", ["active"]⟩ (by decide) (by decide)

/-- C9: the active-link click handler is idempotent: clicking the same
captured link twice leaves the same class configuration as clicking it
once. -/
theorem activeClick_idem (links : List Nat) (clicked : Nat) (doc : List Elem)
    (_hcl : clicked ∈ links) :
    activeClickHandler links clicked (activeClickHandler links clicked doc)
      = activeClickHandler links clicked doc := by
  simp only [activeClickHandler_eq, List.map_map]
  apply List.map_congr_left
  intro a _
  simp only [Function.comp]
  exact activeClick_step_idem links clicked a

/-- Witness for C9: clicking link 2 twice from the blank three-link
document equals clicking it once. -/
theorem activeClick_idem_witness :
    activeClickHandler [1, 2, 3] 2
        (activeClickHandler [1, 2, 3] 2 [⟨1, "", []⟩, ⟨2, "", []⟩, ⟨3, "", []⟩])
      = activeClickHandler [1, 2, 3] 2 [⟨1, "", []⟩, ⟨2, "", []⟩, ⟨3, "", []⟩] :=
  activeClick_idem [1, 2, 3] 2 [⟨1, "", []⟩, ⟨2, "", []⟩, ⟨3, "", []⟩] (by decide)

/-! ### The scroll-reveal animator -/

theorem revealStep_key (rs : List Nat) (top : Nat → Int) (ih : Int) (e : Elem) :
    (revealStep rs top ih e).key = e.key := by
  unfold revealStep
  split <;> rfl

theorem hasClass_revealStep_ne (rs : List Nat) (top : Nat → Int) (ih : Int) (e : Elem)
    (c : String) (h : c ≠ "visible") :
    hasClass (revealStep rs top ih e) c = hasClass e c := by
  unfold revealStep
  split
  · rw [hasClass_classListAdd]
    simp [beq_decide, h]
  · rfl

theorem hasClass_visible_revealStep (rs : List Nat) (top : Nat → Int) (ih : Int) (e : Elem)
    (h : hasClass e "visible" = true) :
    hasClass (revealStep rs top ih e) "visible" = true := by
  unfold revealStep
  split
  · rw [hasClass_classListAdd]
    simp [h]
  · exact h

theorem hasClass_stickyMutation_ne (y : Nat) (e : Elem) (c : String) (h : c ≠ "sticky") :
    hasClass (stickyMutation y e) c = hasClass e c := by
  have hb : (c != "sticky") = true := by simpa using h
  unfold stickyMutation
  split
  · rw [hasClass_classListAdd]
    simp [beq_decide, h]
  · rw [hasClass_classListRemove, hb, Bool.and_true]

theorem stickyMutation_key (y : Nat) (e : Elem) : (stickyMutation y e).key = e.key := by
  unfold stickyMutation
  split <;> rfl

/-! ### Forall₂ infrastructure for relating a document to its image
under a handler -/

theorem forall₂_updateFirst {r : Elem → Elem → Prop} (p : Elem → Bool) (f : Elem → Elem)
    (l : List Elem) (hf : ∀ e, r e (f e)) (hr : ∀ e, r e e) :
    List.Forall₂ r l (updateFirst p f l) := by
  induction l with
  | nil => exact List.Forall₂.nil
  | cons e es ih =>
    by_cases h : p e = true
    · rw [updateFirst_cons_pos p f e es h]
      exact List.Forall₂.cons (hf e) (List.forall₂_same.mpr fun x _ => hr x)
    · rw [updateFirst_cons_neg p f e es h]
      exact List.Forall₂.cons (hr e) ih

theorem forall₂_map_self {r : Elem → Elem → Prop} (f : Elem → Elem) (l : List Elem)
    (hf : ∀ e, r e (f e)) : List.Forall₂ r l (l.map f) := by
  rw [List.forall₂_map_right_iff]
  exact List.forall₂_same.mpr fun x _ => hf x

theorem forall₂_trans {r : Elem → Elem → Prop}
    (ht : ∀ a b c, r a b → r b c → r a c) {l₁ l₂ l₃ : List Elem}
    (h12 : List.Forall₂ r l₁ l₂) (h23 : List.Forall₂ r l₂ l₃) :
    List.Forall₂ r l₁ l₃ := by
  induction h12 generalizing l₃ with
  | nil =>
    cases h23
    exact List.Forall₂.nil
  | cons hab _ ihr =>
    cases h23 with
    | cons hbc h' => exact List.Forall₂.cons (ht _ _ _ hab hbc) (ihr h')

/-- Visibility is preserved from a document to its image under one full
scroll event (sticky toggler, then revealOnScroll). -/
theorem visible_mono_scrollEventStep (st : PageState) (ev : ScrollEvent) :
    List.Forall₂ (fun e e' => hasClass e "visible" = true → hasClass e' "visible" = true)
      st.doc (scrollEventStep st ev) := by
  unfold scrollEventStep revealOnScroll
  apply forall₂_trans (fun a b c hab hbc h => hbc (hab h))
      (forall₂_updateFirst _ (stickyMutation ev.scrollY) st.doc ?hf ?hr)
  · exact forall₂_map_self _ _ fun e h =>
      hasClass_visible_revealStep st.capturedReveals ev.top ev.innerHeight e h
  case hf =>
    intro e h
    rw [hasClass_stickyMutation_ne ev.scrollY e "visible" (by decide)]
    exact h
  case hr =>
    intro e h
    exact h

/-- C3: revealed elements are never un-revealed.  Over any sequence of
scroll events, every element of the document that carries "visible"
still carries it afterwards, whatever the element positions supplied by
each later event (the handler only ever adds the class). -/
theorem reveal_visible_monotonic (st : PageState) (evs : List ScrollEvent) :
    List.Forall₂ (fun e e' => hasClass e "visible" = true → hasClass e' "visible" = true)
      st.doc (runScrollEvents st evs).doc := by
  induction evs generalizing st with
  | nil => exact List.forall₂_same.mpr fun x _ h => h
  | cons ev evs ih =>
    have hstep : runScrollEvents st (ev :: evs)
        = runScrollEvents { st with doc := scrollEventStep st ev } evs := rfl
    rw [hstep]
    exact forall₂_trans (fun a b c hab hbc h => hbc (hab h))
      (visible_mono_scrollEventStep st ev)
      (ih { st with doc := scrollEventStep st ev })

/-- Core of C4: after revealOnScroll, every tracked element whose
current top satisfies the threshold predicate carries "visible". -/
theorem revealOnScroll_visible (rs : List Nat) (top : Nat → Int) (ih : Int)
    (d : List Elem) :
    ∀ e' ∈ revealOnScroll rs top ih d,
      e'.key ∈ rs → top e'.key < ih - 100 → hasClass e' "visible" = true := by
  intro e' he' hk ht
  unfold revealOnScroll at he'
  simp only [List.mem_map] at he'
  obtain ⟨a, _, ha⟩ := he'
  subst ha
  rw [revealStep_key] at hk ht
  have hcond : (rs.contains a.key && decide (top a.key < ih - 100)) = true := by
    have h1 : rs.contains a.key = true := by simpa [List.elem_eq_mem] using hk
    simp [h1, hk, ht]
  unfold revealStep
  rw [if_pos hcond, hasClass_classListAdd]
  simp

/-- C4: on every scroll event (where the reveal listener runs after the
sticky toggler) and once at initialization, the threshold predicate is
evaluated against the current element positions, and every tracked
element satisfying it receives the "visible" class. -/
theorem reveal_predicate_applied (st : PageState) (ev : ScrollEvent) (initDoc : List Elem)
    (navLinks : List Nat) (top0 : Nat → Int) (ih0 : Int) :
    (∀ e' ∈ scrollEventStep st ev,
        e'.key ∈ st.capturedReveals →
        ev.top e'.key < ev.innerHeight - 100 → hasClass e' "visible" = true)
    ∧ (∀ e' ∈ (pageInit initDoc navLinks top0 ih0).doc,
        e'.key ∈ queryAllClass initDoc "reveal" →
        top0 e'.key < ih0 - 100 → hasClass e' "visible" = true) := by
  constructor
  · intro e' he' hk ht
    exact revealOnScroll_visible st.capturedReveals ev.top ev.innerHeight
      (stickyScrollHandler st.doc ev.scrollY) e' he' hk ht
  · intro e' he' hk ht
    exact revealOnScroll_visible (queryAllClass initDoc "reveal") top0 ih0 initDoc
      e' he' hk ht

/-- Witness for C4: a single tracked element within the threshold is
marked visible by the scroll-event evaluation. -/
theorem reveal_predicate_applied_witness :
    hasClass (⟨1, "", ["reveal", "visible"]⟩ : Elem) "visible" = true :=
  (reveal_predicate_applied ⟨[⟨1, "", ["reveal"]⟩], [], [1]⟩ ⟨0, fun _ => 0, 200⟩
      [] [] (fun _ => 0) 0).1
    ⟨1, "", ["reveal", "visible"]⟩ (by decide) (by decide) (by decide)

/-! ### Frame effects: handlers only tweak the three marker classes -/

theorem stickyMutation_domId (y : Nat) (e : Elem) :
    (stickyMutation y e).domId = e.domId := by
  unfold stickyMutation
  split <;> rfl

theorem clearActive_domId (links : List Nat) (e : Elem) :
    (clearActive links e).domId = e.domId := by
  unfold clearActive
  split <;> rfl

theorem markActive_domId (clicked : Nat) (e : Elem) :
    (markActive clicked e).domId = e.domId := by
  unfold markActive
  split <;> rfl

theorem revealStep_domId (rs : List Nat) (top : Nat → Int) (ih : Int) (e : Elem) :
    (revealStep rs top ih e).domId = e.domId := by
  unfold revealStep
  split <;> rfl

theorem hasClass_clearActive_ne (links : List Nat) (e : Elem) (c : String)
    (h : c ≠ "active") : hasClass (clearActive links e) c = hasClass e c := by
  have hb : (c != "active") = true := by simpa using h
  unfold clearActive
  split
  · rw [hasClass_classListRemove, hb, Bool.and_true]
  · rfl

theorem hasClass_markActive_ne (clicked : Nat) (e : Elem) (c : String)
    (h : c ≠ "active") : hasClass (markActive clicked e) c = hasClass e c := by
  unfold markActive
  split
  · rw [hasClass_classListAdd]
    simp [beq_decide, h]
  · rfl

/-- One document element and its image under a handler agree on node
identity, on the id attribute, and on every class other than the three
marker classes "sticky", "active" and "visible". -/
def classesAgreeOutside (e e' : Elem) : Prop :=
  e'.key = e.key ∧ e'.domId = e.domId ∧
    ∀ c, c ≠ "sticky" → c ≠ "active" → c ≠ "visible" → hasClass e' c = hasClass e c

/-- A handler run neither creates nor removes elements and only changes
membership of the three marker classes: the output document is related
elementwise to the input one. -/
def onlyClassMutations (doc doc' : List Elem) : Prop :=
  List.Forall₂ classesAgreeOutside doc doc'

theorem classesAgreeOutside_refl (e : Elem) : classesAgreeOutside e e :=
  ⟨rfl, rfl, fun _ _ _ _ => rfl⟩

theorem classesAgreeOutside_trans {a b c : Elem} (h1 : classesAgreeOutside a b)
    (h2 : classesAgreeOutside b c) : classesAgreeOutside a c :=
  ⟨h2.1.trans h1.1, h2.2.1.trans h1.2.1,
    fun s hs ha hv => (h2.2.2 s hs ha hv).trans (h1.2.2 s hs ha hv)⟩

theorem classesAgreeOutside_stickyMutation (y : Nat) (e : Elem) :
    classesAgreeOutside e (stickyMutation y e) :=
  ⟨stickyMutation_key y e, stickyMutation_domId y e,
    fun c hs _ _ => hasClass_stickyMutation_ne y e c hs⟩

theorem classesAgreeOutside_clearActive (links : List Nat) (e : Elem) :
    classesAgreeOutside e (clearActive links e) :=
  ⟨clearActive_key links e, clearActive_domId links e,
    fun c _ ha _ => hasClass_clearActive_ne links e c ha⟩

theorem classesAgreeOutside_markActive (clicked : Nat) (e : Elem) :
    classesAgreeOutside e (markActive clicked e) :=
  ⟨markActive_key clicked e, markActive_domId clicked e,
    fun c _ ha _ => hasClass_markActive_ne clicked e c ha⟩

theorem classesAgreeOutside_revealStep (rs : List Nat) (top : Nat → Int) (ih : Int)
    (e : Elem) : classesAgreeOutside e (revealStep rs top ih e) :=
  ⟨revealStep_key rs top ih e, revealStep_domId rs top ih e,
    fun c _ _ hv => hasClass_revealStep_ne rs top ih e c hv⟩

theorem stickyScrollHandler_no_navbar (doc : List Elem) (y : Nat)
    (h : ∀ e ∈ doc, hasClass e "navbar" = false) :
    stickyScrollHandler doc y = doc := by
  induction doc with
  | nil => rfl
  | cons e es ih =>
    have he : hasClass e "navbar" = false := h e (by simp)
    have hes : stickyScrollHandler es y = es :=
      ih fun x hx => h x (List.mem_cons_of_mem e hx)
    rw [stickyScrollHandler_eq] at hes ⊢
    rw [updateFirst_cons_neg (fun e => hasClass e "navbar") (stickyMutation y) e es
        (by simp [he]), hes]

/-- C8: each handler is a silent no-op when its target is absent (a
scroll with no navbar leaves the document untouched; a click on a
fragment with no matching element issues no scroll call and throws
nothing), and every handler only ever changes membership of the marker
classes "sticky", "active", "visible" on the existing elements — no
element is created or removed. -/
theorem handlers_frame_effects (doc : List Elem) (y : Nat) (links : List Nat)
    (clicked : Nat) (rs : List Nat) (top : Nat → Int) (ih : Int) (hash : String) :
    ((∀ e ∈ doc, hasClass e "navbar" = false) → stickyScrollHandler doc y = doc)
    ∧ onlyClassMutations doc (stickyScrollHandler doc y)
    ∧ onlyClassMutations doc (activeClickHandler links clicked doc)
    ∧ onlyClassMutations doc (revealOnScroll rs top ih doc)
    ∧ ((hash != "" && strStartsWith hash "#") = true →
        doc.find? (fun e => e.domId == hash.drop 1) = none →
        smoothScrollClickHandler doc hash
          = { defaultPrevented := true, scrollCalls := [] }) := by
  refine ⟨stickyScrollHandler_no_navbar doc y, ?_, ?_, ?_, ?_⟩
  · rw [stickyScrollHandler_eq]
    exact forall₂_updateFirst _ _ doc (classesAgreeOutside_stickyMutation y)
      classesAgreeOutside_refl
  · rw [activeClickHandler_eq]
    exact @forall₂_trans classesAgreeOutside
      (fun _ _ _ h1 h2 => classesAgreeOutside_trans h1 h2) _ _ _
      (@forall₂_map_self classesAgreeOutside (clearActive links) doc
        (classesAgreeOutside_clearActive links))
      (@forall₂_map_self classesAgreeOutside (markActive clicked)
        (doc.map (clearActive links)) (classesAgreeOutside_markActive clicked))
  · unfold revealOnScroll
    exact forall₂_map_self _ doc (classesAgreeOutside_revealStep rs top ih)
  · intro hc hn
    simp [smoothScrollClickHandler, hc, hn]

/-- Witness for C8: a navbar-free document is untouched by a scroll,
and a click on "#missing" with no match is prevented with no scroll
call. -/
theorem handlers_frame_effects_witness :
    stickyScrollHandler [⟨1, "x", ["foo"]⟩] 100 = [⟨1, "x", ["foo"]⟩]
    ∧ smoothScrollClickHandler [⟨1, "x", ["foo"]⟩] "#missing"
        = { defaultPrevented := true, scrollCalls := [] } :=
  ⟨(handlers_frame_effects [⟨1, "x", ["foo"]⟩] 100 [] 0 [] (fun _ => 0) 0 "#missing").1
      (by decide),
    (handlers_frame_effects [⟨1, "x", ["foo"]⟩] 100 [] 0 [] (fun _ => 0) 0
        "#missing").2.2.2.2 (by decide) (by decide)⟩

/-! ### The sticky handler re-queries the live document -/

theorem navbarStickyState_revealOnScroll (rs : List Nat) (top : Nat → Int) (ih : Int)
    (d : List Elem) :
    navbarStickyState (revealOnScroll rs top ih d) = navbarStickyState d := by
  unfold revealOnScroll navbarStickyState
  rw [List.find?_map]
  have hp : ((fun e => hasClass e "navbar") ∘ revealStep rs top ih)
      = fun e => hasClass e "navbar" := by
    funext e
    exact hasClass_revealStep_ne rs top ih e "navbar" (by decide)
  rw [hp, Option.map_map]
  congr 1
  funext e
  simp only [Function.comp]
  exact hasClass_revealStep_ne rs top ih e "sticky" (by decide)

/-- C10: the sticky toggler queries ".navbar" at event time, so its
effect on a scroll event depends only on the live document and the
current offset, never on the state captured at initialization; in
particular, after initialization on a document with no navbar at all,
a navbar present in the live document at scroll time is still toggled
correctly. -/
theorem sticky_uses_live_document (st : PageState) (ev : ScrollEvent)
    (initDoc : List Elem) (navLinks : List Nat) (top0 : Nat → Int) (ih0 : Int)
    (curDoc : List Elem)
    (_hinit : ∀ e ∈ initDoc, hasClass e "navbar" = false) :
    navbarStickyState (scrollEventStep st ev)
        = (navbarStickyState st.doc).map (fun _ => decide (ev.scrollY > 50))
    ∧ navbarStickyState
          (scrollEventStep { pageInit initDoc navLinks top0 ih0 with doc := curDoc } ev)
        = (navbarStickyState curDoc).map (fun _ => decide (ev.scrollY > 50)) := by
  constructor
  · unfold scrollEventStep
    rw [navbarStickyState_revealOnScroll, navbarStickyState_stickyScrollHandler]
  · unfold scrollEventStep
    rw [navbarStickyState_revealOnScroll, navbarStickyState_stickyScrollHandler]

/-- Witness for C10: initialization saw only a reveal element and no
navbar; a later scroll at offset 100 still marks the navbar that is now
in the live document. -/
theorem sticky_uses_live_document_witness :
    navbarStickyState
        (scrollEventStep
          { pageInit [⟨2, "", ["reveal"]⟩] [] (fun _ => 0) 0 with
              doc := [⟨1, "", ["navbar"]⟩] }
          ⟨100, fun _ => 0, 0⟩)
      = (navbarStickyState [⟨1, "", ["navbar"]⟩]).map
          (fun _ => decide ((100 : Nat) > 50)) :=
  (sticky_uses_live_document ⟨[⟨1, "", ["navbar"]⟩], [], []⟩ ⟨100, fun _ => 0, 0⟩
      [⟨2, "", ["reveal"]⟩] [] (fun _ => 0) 0 [⟨1, "", ["navbar"]⟩] (by decide)).2

end VaxSafe
